import Mathlib

/-!
Shallow embedding of the plant-disease backend.

Two source variants are embedded:
* `plant_disease_app.py` (the "App" variant): mock predictions driven by the
  NumPy random generator;
* `app_test.py` (the "Test" variant): model-backed predictions resolved with
  `np.argmax` and an optional plant filter.

Modelling conventions: Python strings are `String`, raw bytes are `List Nat`,
floating-point scores are `ℚ`, `None`-able results are `Option`, and a raised
`ValueError` is `Option.none` of the surrounding call.  External collaborators
(PIL decode/resize, the loaded Keras model, the NumPy generator state) are
explicit function/value parameters.  The wall-clock `timestamp` field and the
Firestore history write are external side effects and are not part of the
embedded state.
-/

namespace PD

/-- Test whether `sm` occurs at the head of `l` (helper for substring search). -/
def leadsWith : List Char → List Char → Bool
  | [], _ => true
  | _ :: _, [] => false
  | p :: ps, c :: cs => p == c && leadsWith ps cs

/-- Python substring test `pat in s`, structurally on character lists. -/
def hasSubstr (pat : List Char) : List Char → Bool
  | [] => pat.isEmpty
  | c :: t => leadsWith pat (c :: t) || hasSubstr pat t

/-- Python `pat in s` on `String`s. -/
def strContains (s pat : String) : Bool := hasSubstr pat.data s.data

/-- Python `s.lower()` (the labels involved are ASCII). -/
def strLower (s : String) : String := ⟨s.data.map Char.toLower⟩

/-- Python `s.strip()`. -/
def strTrim (s : String) : String :=
  ⟨((s.data.dropWhile Char.isWhitespace).reverse.dropWhile Char.isWhitespace).reverse⟩

/-- Characters of `l` strictly before the first occurrence of `sep`
(Python `l.split(sep)[0]`); all of `l` when `sep` does not occur. -/
def splitFirst (sep : List Char) : List Char → List Char
  | [] => []
  | c :: t => if leadsWith sep (c :: t) then [] else c :: splitFirst sep t

/-- Characters after the first occurrence of `sep`, when `sep` occurs. -/
def splitRest (sep : List Char) : List Char → Option (List Char)
  | [] => none
  | c :: t => if leadsWith sep (c :: t) then some ((c :: t).drop sep.length)
              else splitRest sep t

/-- Python `s.split(sep)[0]`. -/
def pySplitHead (s sep : String) : String := ⟨splitFirst sep.data s.data⟩

/-- Python `s.split(sep)[1] if sep in s else dflt` (also models
`parts[1] if len(parts) > 1 else dflt`, which is the same condition). -/
def pySplitSnd (s sep dflt : String) : String :=
  match splitRest sep.data s.data with
  | some r => ⟨splitFirst sep.data r⟩
  | none => dflt

/-- Python `round(x, 2)`, used on the 0-100 confidence scale.  Modelled as
round-half-up; no claim exercises an exact half-tie, where Python rounds
half-to-even. -/
def pyRound2 (x : ℚ) : ℚ := ((⌊x * 100 + 1 / 2⌋ : ℤ) : ℚ) / 100

/-- `np.random.choice(l)`: the generator state yields a draw `k`, and the
sampled element is an element of `l` (index `k % l.length`). -/
def npChoice (l : List Nat) (k : Nat) : Nat := l.getD (k % l.length) 0

/-- Maximum entry of a score vector (`0` for the empty vector, on which the
code never calls the resolver). -/
def listMax : List ℚ → ℚ
  | [] => 0
  | x :: xs => xs.foldl max x

/-- `np.argmax`: index of the first occurrence of the maximum entry. -/
def argmax (l : List ℚ) : Nat := l.findIdx (fun v => decide (v = listMax l))

/-- `DISEASE_CLASSES` of `plant_disease_app.py` (25 classes). -/
def diseaseClassesApp : List (Nat × String) :=
  [(0, "Apple___Apple_scab"),
   (1, "Apple___Black_rot"),
   (2, "Apple___Cedar_apple_rust"),
   (3, "Apple___healthy"),
   (4, "Corn___Cercospora_leaf_spot_Gray_leaf_spot"),
   (5, "Corn___Common_rust"),
   (6, "Corn___healthy"),
   (7, "Corn___Northern_Leaf_Blight"),
   (8, "Grape___Black_rot"),
   (9, "Grape___Esca_Black_Measles"),
   (10, "Grape___healthy"),
   (11, "Grape___Leaf_blight_Isariopsis_Leaf_Spot"),
   (12, "Potato___Early_blight"),
   (13, "Potato___healthy"),
   (14, "Potato___Late_blight"),
   (15, "Tomato___Bacterial_spot"),
   (16, "Tomato___Early_blight"),
   (17, "Tomato___healthy"),
   (18, "Tomato___Late_blight"),
   (19, "Tomato___Leaf_Mold"),
   (20, "Tomato___Septoria_leaf_spot"),
   (21, "Tomato___Spider_mites_Two_spotted_spider_mite"),
   (22, "Tomato___Target_Spot"),
   (23, "Tomato___Tomato_mosaic_virus"),
   (24, "Tomato___Tomato_Yellow_Leaf_Curl_Virus")]

/-- `PLANT_TYPES` of `plant_disease_app.py`. -/
def plantTypesApp : List (String × List Nat) :=
  [("apple", [0, 1, 2, 3]),
   ("corn", [4, 5, 6, 7]),
   ("grape", [8, 9, 10, 11]),
   ("potato", [12, 13, 14]),
   ("tomato", [15, 16, 17, 18, 19, 20, 21, 22, 23, 24])]

/-- `DISEASE_CLASSES` of `app_test.py` (38 classes). -/
def diseaseClassesTest : List (Nat × String) :=
  [(0, "Apple___Apple_scab"),
   (1, "Apple___Black_rot"),
   (2, "Apple___Cedar_apple_rust"),
   (3, "Apple___healthy"),
   (4, "Blueberry___healthy"),
   (5, "Cherry___healthy"),
   (6, "Cherry___Powdery_mildew"),
   (7, "Corn___Cercospora_leaf_spot Gray_leaf_spot"),
   (8, "Corn___Common_rust"),
   (9, "Corn___healthy"),
   (10, "Corn___Northern_Leaf_Blight"),
   (11, "Grape___Black_rot"),
   (12, "Grape___Esca_(Black_Measles)"),
   (13, "Grape___healthy"),
   (14, "Grape___Leaf_blight_(Isariopsis_Leaf_Spot)"),
   (15, "Orange___Haunglongbing_(Citrus_greening)"),
   (16, "Peach___Bacterial_spot"),
   (17, "Peach___healthy"),
   (18, "Pepper,_bell___Bacterial_spot"),
   (19, "Pepper,_bell___healthy"),
   (20, "Potato___Early_blight"),
   (21, "Potato___healthy"),
   (22, "Potato___Late_blight"),
   (23, "Raspberry___healthy"),
   (24, "Soybean___healthy"),
   (25, "Squash___Powdery_mildew"),
   (26, "Strawberry___healthy"),
   (27, "Strawberry___Leaf_scorch"),
   (28, "Tomato___Bacterial_spot"),
   (29, "Tomato___Early_blight"),
   (30, "Tomato___healthy"),
   (31, "Tomato___Late_blight"),
   (32, "Tomato___Leaf_Mold"),
   (33, "Tomato___Septoria_leaf_spot"),
   (34, "Tomato___Spider_mites Two-spotted_spider_mite"),
   (35, "Tomato___Target_Spot"),
   (36, "Tomato___Tomato_mosaic_virus"),
   (37, "Tomato___Tomato_Yellow_Leaf_Curl_Virus")]

/-- `PLANT_TYPES` of `app_test.py`. -/
def plantTypesTest : List (String × List Nat) :=
  [("apple", [0, 1, 2, 3]),
   ("corn", [7, 8, 9, 10]),
   ("grape", [11, 12, 13, 14]),
   ("potato", [20, 21, 22]),
   ("tomato", [28, 29, 30, 31, 32, 33, 34, 35, 36, 37])]

/-- Severity cascade of `plant_disease_app.predict_disease` (raw confidence on
the 0-1 scale): healthy maps to `none`, then strict thresholds 0.8 / 0.6. -/
def severityApp (is_healthy : Bool) (confidence : ℚ) : String :=
  if is_healthy then "none"
  else if confidence > 0.8 then "high"
  else if confidence > 0.6 then "medium"
  else "low"

/-- Severity cascade of `app_test.predict_disease`: identical thresholds, but
healthy maps to `low`. -/
def severityTest (is_healthy : Bool) (confidence : ℚ) : String :=
  if is_healthy then "low"
  else if confidence > 0.8 then "high"
  else if confidence > 0.6 then "medium"
  else "low"

/-- Keyword cascade of `app_test.get_recommendations` building the base list
before the severity-specific insertions. -/
def baseRecsTest (disease_type : String) : List String :=
  if strContains (strLower disease_type) "healthy" then
    ["Continue current care practices",
     "Monitor for any changes in plant appearance",
     "Maintain proper watering and fertilization schedule",
     "Ensure adequate sunlight and air circulation"]
  else if strContains (strLower disease_type) "blight" then
    ["Remove and destroy affected plant parts immediately",
     "Apply copper-based fungicide",
     "Improve air circulation around plants",
     "Avoid overhead watering",
     "Apply preventive fungicide treatments"]
  else if strContains (strLower disease_type) "spot" then
    ["Remove infected leaves and dispose properly",
     "Apply fungicide containing chlorothalonil or mancozeb",
     "Water at soil level to avoid wetting foliage",
     "Ensure proper spacing between plants",
     "Apply mulch to prevent soil splash"]
  else if strContains (strLower disease_type) "rust" then
    ["Remove infected plant material",
     "Apply sulfur-based fungicide",
     "Improve air circulation",
     "Avoid overhead irrigation",
     "Consider resistant varieties for future plantings"]
  else if strContains (strLower disease_type) "mildew" then
    ["Increase air circulation",
     "Apply fungicide containing myclobutanil or propiconazole",
     "Remove affected plant parts",
     "Reduce humidity around plants",
     "Apply preventive treatments during humid periods"]
  else
    ["Consult with local agricultural extension service",
     "Remove affected plant parts",
     "Apply appropriate fungicide or bactericide",
     "Improve growing conditions",
     "Consider resistant varieties"]

/-- `app_test.get_recommendations`: base list, then `insert(0, ...)` (= cons)
for high/medium and a trailing `append` for high. -/
def get_recommendations (disease_type severity : String) : List String :=
  if severity = "high" then
    "URGENT: Immediate action required"
      :: (baseRecsTest disease_type ++ ["Consider removing severely affected plants"])
  else if severity = "medium" then
    "Moderate intervention needed" :: baseRecsTest disease_type
  else baseRecsTest disease_type

/-- Healthy-plant list of `plant_disease_app.get_disease_recommendations`
(the strings are copied byte-for-byte from the source, including its
mis-encoded emoji). -/
def healthyRecsApp (plant_name : String) : List String :=
  ["‚úÖ Your " ++ strLower plant_name ++ " plant appears healthy!",
   "üå± Continue current care practices",
   "üëÄ Monitor for any changes in plant appearance",
   "üíß Maintain proper watering schedule",
   "‚òÄÔ∏è Ensure adequate sunlight exposure",
   "üå¨Ô∏è Provide good air circulation"]

/-- Severity-based urgency line of `plant_disease_app.get_disease_recommendations`
(note: the `else` branch appends a line for `low`/`none` as well). -/
def sevLineApp (severity : String) : String :=
  if severity = "high" then "üö® URGENT: Immediate action required!"
  else if severity = "medium" then "‚ö†Ô∏è Moderate intervention needed"
  else "‚ÑπÔ∏è Early stage treatment recommended"

/-- `plant_emoji` local of the early/late-blight branches. -/
def plantEmojiApp (plant_name : String) : String :=
  if strLower plant_name = "potato" then "ü•î" else "üçÖ"

/-- Disease-specific keyword cascade of
`plant_disease_app.get_disease_recommendations` (source order preserved). -/
def diseaseSpecificApp (plant_name disease_type : String) : List String :=
  if strContains (strLower disease_type) "scab" then
    ["üçé Apple Scab Treatment:",
     "üçÇ Remove fallen leaves and infected fruit immediately",
     "üíä Apply fungicide containing captan or myclobutanil",
     "‚úÇÔ∏è Prune to improve air circulation",
     "üö´ Avoid overhead watering",
     "üîÑ Rotate fungicide types to prevent resistance"]
  else if strContains (strLower disease_type) "black_rot"
      || strContains (strLower disease_type) "black rot" then
    ["ü¶† Black Rot Treatment:",
     "‚úÇÔ∏è Prune out infected branches and cankers",
     "üóëÔ∏è Remove and destroy all infected plant material",
     "üíä Apply copper-based fungicide",
     "üå°Ô∏è Improve air circulation and reduce humidity",
     "üö´ Avoid watering late in the day"]
  else if strContains (strLower disease_type) "cedar_apple_rust"
      || strContains (strLower disease_type) "rust" then
    ["ü¶Ä Rust Disease Treatment:",
     "üå≤ Remove nearby juniper plants if possible",
     "üíä Apply sulfur-based fungicide",
     "üçÇ Remove infected leaves immediately",
     "üå¨Ô∏è Ensure good air circulation",
     "üö´ Avoid overhead irrigation"]
  else if strContains (strLower disease_type) "cercospora"
      || strContains (strLower disease_type) "gray_leaf_spot" then
    ["üåΩ Corn Leaf Spot Treatment:",
     "üîÑ Implement crop rotation",
     "üíä Apply fungicide containing strobilurin",
     "üå± Plant resistant corn varieties",
     "üóëÔ∏è Remove crop debris after harvest",
     "üíß Avoid overhead irrigation"]
  else if strContains (strLower disease_type) "common_rust" then
    ["üåΩ Common Rust Treatment:",
     "üíä Apply fungicide containing azoxystrobin",
     "üå± Plant rust-resistant varieties",
     "üå¨Ô∏è Ensure proper plant spacing",
     "üíß Water at soil level",
     "üîç Monitor weather conditions (high humidity)"]
  else if strContains (strLower disease_type) "northern_leaf_blight"
      || strContains (strLower disease_type) "leaf_blight" then
    ["üåΩ Northern Leaf Blight Treatment:",
     "üíä Apply fungicide containing propiconazole",
     "üîÑ Practice crop rotation",
     "üå± Use resistant hybrid varieties",
     "üóëÔ∏è Remove infected plant debris",
     "üå¨Ô∏è Improve air circulation"]
  else if strContains (strLower disease_type) "esca"
      || strContains (strLower disease_type) "black_measles" then
    ["üçá Esca Disease Treatment:",
     "‚úÇÔ∏è Prune infected wood during dry weather",
     "ü©π Apply wound protectant after pruning",
     "üíä Use systemic fungicides (consult local expert)",
     "üå± Plant resistant grape varieties",
     "üö´ Avoid excessive irrigation"]
  else if strContains (strLower disease_type) "early_blight" then
    [plantEmojiApp plant_name ++ " Early Blight Treatment:",
     "üíä Apply fungicide containing chlorothalonil",
     "üçÇ Remove infected lower leaves",
     "üå¨Ô∏è Improve air circulation",
     "üíß Water at soil level only",
     "üõ°Ô∏è Apply mulch to prevent soil splash"]
  else if strContains (strLower disease_type) "late_blight" then
    [plantEmojiApp plant_name ++ " Late Blight Treatment:",
     "üö® URGENT: This is a serious disease!",
     "üíä Apply copper-based fungicide immediately",
     "üóëÔ∏è Remove and destroy all infected plants",
     "üå°Ô∏è Reduce humidity around plants",
     "üö´ Do not compost infected material",
     "üìû Contact agricultural extension service"]
  else if strContains (strLower disease_type) "bacterial_spot" then
    ["ü¶† Bacterial Spot Treatment:",
     "üíä Apply copper-based bactericide",
     "üå°Ô∏è Reduce humidity and improve ventilation",
     "üö´ Avoid overhead watering",
     "‚úÇÔ∏è Remove infected plant parts",
     "üîÑ Rotate crops next season"]
  else if strContains (strLower disease_type) "leaf_mold" then
    ["üçÖ Leaf Mold Treatment:",
     "üå°Ô∏è Reduce humidity (below 85%)",
     "üå¨Ô∏è Increase ventilation in greenhouse",
     "üíä Apply fungicide containing myclobutanil",
     "‚úÇÔ∏è Remove infected leaves",
     "üå± Plant resistant varieties"]
  else if strContains (strLower disease_type) "septoria_leaf_spot" then
    ["üçÖ Septoria Leaf Spot Treatment:",
     "üíä Apply fungicide containing chlorothalonil",
     "üçÇ Remove infected lower leaves",
     "üõ°Ô∏è Mulch around plants",
     "üíß Water at soil level",
     "‚úÇÔ∏è Stake plants for better air flow"]
  else if strContains (strLower disease_type) "spider_mites" then
    ["üï∑Ô∏è Spider Mite Treatment:",
     "üí¶ Spray with insecticidal soap",
     "üåä Increase humidity around plants",
     "üîç Use predatory mites as biological control",
     "üö´ Avoid over-fertilizing with nitrogen",
     "üíß Regular water spraying of leaves"]
  else if strContains (strLower disease_type) "target_spot" then
    ["üéØ Target Spot Treatment:",
     "üíä Apply fungicide containing azoxystrobin",
     "üå¨Ô∏è Improve air circulation",
     "üíß Avoid overhead irrigation",
     "üîÑ Rotate crops",
     "üóëÔ∏è Remove plant debris"]
  else if strContains (strLower disease_type) "mosaic_virus" then
    ["ü¶† Mosaic Virus Management:",
     "üö´ No cure available - remove infected plants",
     "üêõ Control aphids and other virus vectors",
     "üå± Plant virus-resistant varieties",
     "üß§ Sanitize tools between plants",
     "üö´ Do not smoke near plants (TMV)"]
  else if strContains (strLower disease_type) "yellow_leaf_curl" then
    ["üçÉ Yellow Leaf Curl Virus Management:",
     "üö´ Remove infected plants immediately",
     "üêõ Control whiteflies (virus vector)",
     "üõ°Ô∏è Use reflective mulch",
     "üå± Plant resistant varieties",
     "üè† Use insect-proof screening in greenhouses"]
  else
    ["üíä Apply broad-spectrum fungicide",
     "‚úÇÔ∏è Remove affected plant parts",
     "üå¨Ô∏è Improve air circulation",
     "üíß Adjust watering practices",
     "üìû Consult local agricultural extension service"]

/-- Trailing general-prevention block always appended for non-healthy plants. -/
def preventionApp : List String :=
  ["",
   "üõ°Ô∏è Prevention for the Future:",
   "üßπ Maintain garden cleanliness",
   "üîÑ Practice crop rotation",
   "üå± Choose disease-resistant varieties",
   "üìä Monitor plants regularly",
   "üíß Use proper irrigation techniques"]

/-- `plant_disease_app.get_disease_recommendations`: healthy plants get the
positive list and return early; otherwise the list is the severity line
followed by the disease-specific block and the prevention block. -/
def get_disease_recommendations (plant_name disease_type severity : String) :
    List String :=
  if strContains (strLower disease_type) "healthy" then healthyRecsApp plant_name
  else sevLineApp severity :: (diseaseSpecificApp plant_name disease_type ++ preventionApp)

/-- Resolution step of `app_test.predict_disease` (lines 269-290): global
`np.argmax`, then, when a recognized plant filter is supplied and the global
winner is outside its id set, re-resolve by `np.argmax` over the filtered
scores (`predictions[0][valid_indices]`).  The empty string models the falsy
`plant_type` (`None` or `""`). -/
def resolveTest (preds : List ℚ) (plant_type : String) : Nat × ℚ :=
  match (if plant_type = "" then none
         else List.lookup (strLower plant_type) plantTypesTest) with
  | none => (argmax preds, preds.getD (argmax preds) 0)
  | some valid =>
    if argmax preds ∈ valid then (argmax preds, preds.getD (argmax preds) 0)
    else
      (valid.getD (argmax (valid.map fun i => preds.getD i 0)) 0,
       (valid.map fun i => preds.getD i 0).getD
         (argmax (valid.map fun i => preds.getD i 0)) 0)

/-- Mock resolution of `plant_disease_app.predict_disease` (lines 415-424):
a recognized plant filter samples `np.random.choice` over that plant's ids
with confidence `np.random.uniform(0.7, 0.95)`; otherwise the choice ranges
over all class ids with confidence `np.random.uniform(0.6, 0.9)`.  The fixed
generator state is modelled by the integer draw `k` and the unit-interval
draw `u`. -/
def resolveApp (plant_type : String) (k : Nat) (u : ℚ) : Nat × ℚ :=
  match (if plant_type = "" then none
         else List.lookup (strLower plant_type) plantTypesApp) with
  | some valid => (npChoice valid k, 0.7 + u * (0.95 - 0.7))
  | none => (npChoice (diseaseClassesApp.map Prod.fst) k, 0.6 + u * (0.9 - 0.6))

/-- A decoded raster image after PIL RGB conversion: rows of (R,G,B) byte
triples. -/
structure RGBImage where
  pixels : List (List (Nat × Nat × Nat))
deriving DecidableEq

/-- Well-formedness of a PIL `RGB`-mode image of size `w × h`: `h` rows of `w`
pixels, every channel a byte (0-255). -/
def RGBImage.wf (img : RGBImage) (w h : Nat) : Prop :=
  img.pixels.length = h ∧
  (∀ row ∈ img.pixels, row.length = w) ∧
  (∀ row ∈ img.pixels, ∀ p ∈ row, p.1 ≤ 255 ∧ p.2.1 ≤ 255 ∧ p.2.2 ≤ 255)

/-- Library contract of `PIL.Image.resize(target, LANCZOS)`: the result is a
well-formed `RGB` image of exactly the target size. -/
def ResizeSpec (rsz : RGBImage → Nat → Nat → RGBImage) : Prop :=
  ∀ img w h, (rsz img w h).wf w h

/-- One pixel of the normalized tensor: its three channels divided by 255.0. -/
def pixChans (p : Nat × Nat × Nat) : List ℚ :=
  [(p.1 : ℚ) / 255, (p.2.1 : ℚ) / 255, (p.2.2 : ℚ) / 255]

/-- `preprocess_image` (identical in both variants up to the default target
size, which callers pass explicitly here): decode (+ RGB conversion, folded
into the abstract `decode` parameter), resize to `(tw, th)` with LANCZOS
(abstract `rsz` parameter), divide by 255.0 and prepend the batch dimension.
An undecodable input makes PIL raise, which the function turns into
`ValueError` (here: `none`). -/
def preprocess_image (decode : List Nat → Option RGBImage)
    (rsz : RGBImage → Nat → Nat → RGBImage)
    (image_data : List Nat) (tw th : Nat) :
    Option (List (List (List (List ℚ)))) :=
  match decode image_data with
  | none => none
  | some img => some [(rsz img tw th).pixels.map (fun row => row.map pixChans)]

/-- Response record of `app_test.predict_disease` (the `timestamp` field is
wall-clock and left out of the embedding). -/
structure DiagnosisTest where
  plant_name : String
  disease_type : String
  is_healthy : Bool
  confidence : ℚ
  severity : String
  recommendations : List String
deriving DecidableEq

/-- Response record of `plant_disease_app.predict_disease`; this variant also
reports `class_id`. -/
structure DiagnosisApp where
  plant_name : String
  disease_type : String
  is_healthy : Bool
  confidence : ℚ
  severity : String
  recommendations : List String
  class_id : Nat
deriving DecidableEq

/-- `app_test.predict_disease`: preprocess, run the model (`mdl`, the loaded
Keras model, external), resolve with the optional plant filter, split the
label, derive healthiness/severity/recommendations.  A raised `ValueError`
(undecodable image) is `none`. -/
def predict_disease_test (decode : List Nat → Option RGBImage)
    (rsz : RGBImage → Nat → Nat → RGBImage)
    (mdl : List (List (List (List ℚ))) → List ℚ)
    (image_data : List Nat) (plant_type : String) : Option DiagnosisTest :=
  match preprocess_image decode rsz image_data 160 160 with
  | none => none
  | some t =>
    some { plant_name :=
             pySplitHead ((List.lookup (resolveTest (mdl t) plant_type).1
               diseaseClassesTest).getD "Unknown") "___"
           disease_type :=
             pySplitSnd ((List.lookup (resolveTest (mdl t) plant_type).1
               diseaseClassesTest).getD "Unknown") "___" "healthy"
           is_healthy :=
             strContains (strLower (pySplitSnd ((List.lookup
               (resolveTest (mdl t) plant_type).1 diseaseClassesTest).getD
               "Unknown") "___" "healthy")) "healthy"
           confidence := pyRound2 ((resolveTest (mdl t) plant_type).2 * 100)
           severity :=
             severityTest (strContains (strLower (pySplitSnd ((List.lookup
               (resolveTest (mdl t) plant_type).1 diseaseClassesTest).getD
               "Unknown") "___" "healthy")) "healthy")
               (resolveTest (mdl t) plant_type).2
           recommendations :=
             get_recommendations
               (pySplitSnd ((List.lookup (resolveTest (mdl t) plant_type).1
                 diseaseClassesTest).getD "Unknown") "___" "healthy")
               (severityTest (strContains (strLower (pySplitSnd ((List.lookup
                 (resolveTest (mdl t) plant_type).1 diseaseClassesTest).getD
                 "Unknown") "___" "healthy")) "healthy")
                 (resolveTest (mdl t) plant_type).2) }

/-- `plant_disease_app.predict_disease`: preprocess (the processed tensor is
then unused by the mock), mock-resolve from the generator draws, split the
label, derive healthiness/severity/recommendations. -/
def predict_disease_app (decode : List Nat → Option RGBImage)
    (rsz : RGBImage → Nat → Nat → RGBImage)
    (image_data : List Nat) (plant_type : String) (k : Nat) (u : ℚ) :
    Option DiagnosisApp :=
  match preprocess_image decode rsz image_data 224 224 with
  | none => none
  | some _ =>
    some { plant_name :=
             pySplitHead ((List.lookup (resolveApp plant_type k u).1
               diseaseClassesApp).getD "Unknown") "___"
           disease_type :=
             pySplitSnd ((List.lookup (resolveApp plant_type k u).1
               diseaseClassesApp).getD "Unknown") "___" "Unknown"
           is_healthy :=
             strContains (strLower (pySplitSnd ((List.lookup
               (resolveApp plant_type k u).1 diseaseClassesApp).getD
               "Unknown") "___" "Unknown")) "healthy"
           confidence := pyRound2 ((resolveApp plant_type k u).2 * 100)
           severity :=
             severityApp (strContains (strLower (pySplitSnd ((List.lookup
               (resolveApp plant_type k u).1 diseaseClassesApp).getD
               "Unknown") "___" "Unknown")) "healthy")
               (resolveApp plant_type k u).2
           recommendations :=
             get_disease_recommendations
               (pySplitHead ((List.lookup (resolveApp plant_type k u).1
                 diseaseClassesApp).getD "Unknown") "___")
               (pySplitSnd ((List.lookup (resolveApp plant_type k u).1
                 diseaseClassesApp).getD "Unknown") "___" "Unknown")
               (severityApp (strContains (strLower (pySplitSnd ((List.lookup
                 (resolveApp plant_type k u).1 diseaseClassesApp).getD
                 "Unknown") "___" "Unknown")) "healthy")
                 (resolveApp plant_type k u).2)
           class_id := (resolveApp plant_type k u).1 }

/-- Error bodies returned by the `/api/predict` handlers with HTTP 400; every
one of them serializes with an `error` field set. -/
inductive ErrBody where
  | noImage
  | noFilename
  | unsupportedPlant (supported : List String)
  | invalidFileType
  | tooLarge
  | predictionFailed
deriving DecidableEq

/-- Outcome of a request handler. -/
inductive Resp (α : Type) where
  | ok (result : α)
  | clientError (body : ErrBody)
  | serverError
deriving DecidableEq

/-- HTTP status code of a handler outcome. -/
def statusOf {α : Type} : Resp α → Nat
  | .ok _ => 200
  | .clientError _ => 400
  | .serverError => 500

/-- The parts of a `POST /api/predict` request (plus the service's
model-availability state) that the handlers inspect. -/
structure PredictRequest where
  modelOk : Bool
  hasImage : Bool
  filename : String
  plantTypeRaw : String
  imageData : List Nat

/-- Python `'.' in filename`. -/
def hasDot (s : String) : Bool := s.data.contains '.'

/-- Python `filename.rsplit('.', 1)[1]`: the characters after the last dot. -/
def extAfterLastDot (s : String) : String :=
  ⟨(s.data.reverse.takeWhile (fun c => c != '.')).reverse⟩

/-- Extension test of `plant_disease_app.predict` (png/jpg/jpeg/webp/bmp). -/
def allowedExtApp (filename : String) : Bool :=
  hasDot filename &&
    ["png", "jpg", "jpeg", "webp", "bmp"].contains (strLower (extAfterLastDot filename))

/-- Extension test of `app_test.predict` (png/jpg/jpeg/webp). -/
def allowedExtTest (filename : String) : Bool :=
  hasDot filename &&
    ["png", "jpg", "jpeg", "webp"].contains (strLower (extAfterLastDot filename))

/-- The `/api/predict` handler of `plant_disease_app.py`: model availability,
image presence, `plant_type` lower+strip, empty filename, plant-type
validation (enumerating the supported types), extension check, 16 MiB cap,
then `predict_disease`; its `ValueError` is recovered as a 400 response.  The
final catch-all 500 branch is unreachable in this pure embedding. -/
def predictRouteApp (decode : List Nat → Option RGBImage)
    (rsz : RGBImage → Nat → Nat → RGBImage)
    (req : PredictRequest) (k : Nat) (u : ℚ) : Resp DiagnosisApp :=
  if req.modelOk = false then .serverError
  else if req.hasImage = false then .clientError .noImage
  else if req.filename = "" then .clientError .noFilename
  else if strTrim (strLower req.plantTypeRaw) ≠ ""
      ∧ List.lookup (strTrim (strLower req.plantTypeRaw)) plantTypesApp = none then
    .clientError (.unsupportedPlant (plantTypesApp.map Prod.fst))
  else if allowedExtApp req.filename = false then .clientError .invalidFileType
  else if req.imageData.length > 16 * 1024 * 1024 then .clientError .tooLarge
  else
    match predict_disease_app decode rsz req.imageData
        (strTrim (strLower req.plantTypeRaw)) k u with
    | none => .clientError .predictionFailed
    | some r => .ok r

/-- The `/api/predict` handler of `app_test.py`: same shape but without the
plant-type validation (an unrecognized filter is silently ignored downstream),
without `strip()`, and without `bmp`.  The Firestore history write is an
external side effect outside the embedding. -/
def predictRouteTest (decode : List Nat → Option RGBImage)
    (rsz : RGBImage → Nat → Nat → RGBImage)
    (mdl : List (List (List (List ℚ))) → List ℚ)
    (req : PredictRequest) : Resp DiagnosisTest :=
  if req.modelOk = false then .serverError
  else if req.hasImage = false then .clientError .noImage
  else if req.filename = "" then .clientError .noFilename
  else if allowedExtTest req.filename = false then .clientError .invalidFileType
  else if req.imageData.length > 16 * 1024 * 1024 then .clientError .tooLarge
  else
    match predict_disease_test decode rsz mdl req.imageData
        (strLower req.plantTypeRaw) with
    | none => .clientError .predictionFailed
    | some r => .ok r

/-- Decoder used in concrete checks: every byte string decodes to a fixed
one-pixel image. -/
def decSome : List Nat → Option RGBImage := fun _ => some ⟨[[(1, 2, 3)]]⟩

/-- Failing decoder used in concrete checks (models undecodable bytes, e.g. a
zero-byte upload). -/
def decNone : List Nat → Option RGBImage := fun _ => none

/-- Trivial resizer satisfying `ResizeSpec`: the constant black image of the
target size. -/
def rszConst : RGBImage → Nat → Nat → RGBImage :=
  fun _ w h => ⟨List.replicate h (List.replicate w (0, 0, 0))⟩

/-- Stand-in model whose top score sits at index 38, outside the test-variant
class table. -/
def mdl38 : List (List (List (List ℚ))) → List ℚ :=
  fun _ => List.replicate 38 (0 : ℚ) ++ [1]

/-- The concrete preprocessed tensor produced by `decSome`/`rszConst` at
target size 160 × 160 (used in concrete checks). -/
def t160 : List (List (List (List ℚ))) :=
  [(rszConst ⟨[[(1, 2, 3)]]⟩ 160 160).pixels.map (fun row => row.map pixChans)]

/-! ## Helper lemmas -/

theorem getD_of_lt {α : Type} (l : List α) (n : Nat) (d : α) (h : n < l.length) :
    l.getD n d = l[n] := by
  simp [List.getD_eq_getElem?_getD, List.getElem?_eq_getElem h]

theorem getD_mem_of_lt {α : Type} (l : List α) (n : Nat) (d : α)
    (h : n < l.length) : l.getD n d ∈ l := by
  rw [getD_of_lt l n d h]; exact List.getElem_mem h

theorem le_foldl_max (xs : List ℚ) (a : ℚ) : a ≤ xs.foldl max a := by
  induction xs generalizing a with
  | nil => exact le_refl a
  | cons x xs ih => exact le_trans (le_max_left a x) (ih (max a x))

theorem mem_le_foldl_max (xs : List ℚ) (a y : ℚ) (hy : y ∈ xs) :
    y ≤ xs.foldl max a := by
  induction xs generalizing a with
  | nil => cases hy
  | cons x xs ih =>
    rcases List.mem_cons.mp hy with h | h
    · subst h
      exact le_trans (le_max_right a y) (le_foldl_max xs (max a y))
    · exact ih (max a x) h

theorem foldl_max_mem (xs : List ℚ) (a : ℚ) :
    xs.foldl max a = a ∨ xs.foldl max a ∈ xs := by
  induction xs generalizing a with
  | nil => exact Or.inl rfl
  | cons x xs ih =>
    simp only [List.foldl_cons]
    rcases ih (max a x) with h | h
    · rcases max_choice a x with hm | hm
      · exact Or.inl (h.trans hm)
      · exact Or.inr (by rw [h, hm]; exact List.mem_cons_self x xs)
    · exact Or.inr (List.mem_cons_of_mem x h)

theorem le_listMax (l : List ℚ) (y : ℚ) (hy : y ∈ l) : y ≤ listMax l := by
  cases l with
  | nil => cases hy
  | cons x xs =>
    show y ≤ xs.foldl max x
    rcases List.mem_cons.mp hy with h | h
    · subst h; exact le_foldl_max xs y
    · exact mem_le_foldl_max xs x y h

theorem listMax_mem (l : List ℚ) (h : l ≠ []) : listMax l ∈ l := by
  cases l with
  | nil => exact absurd rfl h
  | cons x xs =>
    show xs.foldl max x ∈ x :: xs
    rcases foldl_max_mem xs x with h' | h'
    · rw [h']; exact List.mem_cons_self x xs
    · exact List.mem_cons_of_mem x h'

theorem argmax_lt_length {l : List ℚ} (h : l ≠ []) : argmax l < l.length := by
  apply List.findIdx_lt_length_of_exists
  exact ⟨listMax l, listMax_mem l h, by simp⟩

theorem getElem_argmax {l : List ℚ} (h : argmax l < l.length) :
    l[argmax l] = listMax l := by
  have := List.findIdx_getElem (p := fun v => decide (v = listMax l)) (w := h)
  simpa using this

theorem argmax_min {l : List ℚ} {i : Nat} (h : i < argmax l) (hi : i < l.length) :
    l[i] ≠ listMax l := by
  have := List.not_of_lt_findIdx (p := fun v => decide (v = listMax l)) h
  simpa using this

/-- `argmax` returns the smaller of exactly two indices attaining the
maximum. -/
theorem argmax_eq_of_two_max {l : List ℚ} {i j : Nat} (hij : i < j)
    (hjl : j < l.length) (_heq : l.getD i 0 = l.getD j 0)
    (hmax : ∀ k, k < l.length → l.getD k 0 ≤ l.getD i 0)
    (huniq : ∀ k, k < l.length → l.getD k 0 = l.getD i 0 → k = i ∨ k = j) :
    argmax l = i := by
  have hil : i < l.length := Nat.lt_trans hij hjl
  have hne : l ≠ [] := by
    intro hnil; rw [hnil] at hjl; simp at hjl
  have hLle : listMax l ≤ l.getD i 0 := by
    obtain ⟨m, hm, hml⟩ := List.mem_iff_getElem.mp (listMax_mem l hne)
    rw [← hml, ← getD_of_lt l m 0 hm]
    exact hmax m hm
  have hle2 : l.getD i 0 ≤ listMax l := by
    rw [getD_of_lt l i 0 hil]
    exact le_listMax l _ (List.getElem_mem hil)
  have hLi : listMax l = l.getD i 0 := le_antisymm hLle hle2
  have haL : argmax l < l.length := argmax_lt_length hne
  have hval : l.getD (argmax l) 0 = l.getD i 0 := by
    rw [getD_of_lt l _ 0 haL, getElem_argmax haL, hLi]
  rcases huniq (argmax l) haL hval with h | h
  · exact h
  · exfalso
    have hia : i < argmax l := by rw [h]; exact hij
    have hli : l[i] = listMax l := by
      rw [← getD_of_lt l i 0 hil]; exact hLi.symm
    exact argmax_min hia hil hli

theorem mem_values_of_lookup {α β : Type} [BEq α] (k : α) (v : β) :
    ∀ ps : List (α × β), List.lookup k ps = some v → v ∈ ps.map Prod.snd := by
  intro ps
  induction ps with
  | nil => intro h; simp [List.lookup] at h
  | cons p ps ih =>
    intro h
    obtain ⟨a, b⟩ := p
    rw [List.lookup] at h
    cases hka : k == a with
    | true =>
      rw [hka] at h
      simp only [Option.some.injEq] at h
      subst h
      exact List.mem_cons_self _ _
    | false =>
      rw [hka] at h
      exact List.mem_cons_of_mem _ (ih h)

theorem lookup_plantTypesTest_ne_nil {k : String} {v : List Nat}
    (h : List.lookup k plantTypesTest = some v) : v ≠ [] := by
  have hall : ∀ v ∈ plantTypesTest.map Prod.snd, v ≠ [] := by decide
  exact hall v (mem_values_of_lookup k v plantTypesTest h)

theorem lookup_plantTypesApp_ne_nil {k : String} {v : List Nat}
    (h : List.lookup k plantTypesApp = some v) : v ≠ [] := by
  have hall : ∀ v ∈ plantTypesApp.map Prod.snd, v ≠ [] := by decide
  exact hall v (mem_values_of_lookup k v plantTypesApp h)

/-- Rewriting equation for `resolveTest` under a recognized plant filter. -/
theorem resolveTest_of_lookup {preds : List ℚ} {pt : String} {valid : List Nat}
    (hpt : pt ≠ "") (hlk : List.lookup (strLower pt) plantTypesTest = some valid) :
    resolveTest preds pt
      = if argmax preds ∈ valid then (argmax preds, preds.getD (argmax preds) 0)
        else (valid.getD (argmax (valid.map fun i => preds.getD i 0)) 0,
              (valid.map fun i => preds.getD i 0).getD
                (argmax (valid.map fun i => preds.getD i 0)) 0) := by
  unfold resolveTest
  rw [if_neg hpt, hlk]

/-- Rewriting equation for `resolveApp` under a recognized plant filter. -/
theorem resolveApp_of_lookup {pt : String} {valid : List Nat} {k : Nat} {u : ℚ}
    (hpt : pt ≠ "") (hlk : List.lookup (strLower pt) plantTypesApp = some valid) :
    resolveApp pt k u = (npChoice valid k, 0.7 + u * (0.95 - 0.7)) := by
  unfold resolveApp
  rw [if_neg hpt, hlk]

theorem npChoice_mem {l : List Nat} (h : l ≠ []) (k : Nat) : npChoice l k ∈ l := by
  have hlen : 0 < l.length := List.length_pos.mpr h
  exact getD_mem_of_lt l _ 0 (Nat.mod_lt k hlen)

/-! ## Claims -/

/-- C1: for every prediction vector and every recognized plant filter, the
resolved class id is a member of that plant's id set — in the model-backed
variant (`resolveTest`, re-resolving by argmax over the plant's indices when
the global argmax falls outside the set) and in the mock variant
(`resolveApp`, sampling only from the plant's indices). -/
theorem c1_restriction_invariant :
    (∀ (preds : List ℚ) (pt : String) (valid : List Nat),
        pt ≠ "" → List.lookup (strLower pt) plantTypesTest = some valid →
        (resolveTest preds pt).1 ∈ valid)
    ∧ (∀ (pt : String) (valid : List Nat) (k : Nat) (u : ℚ),
        pt ≠ "" → List.lookup (strLower pt) plantTypesApp = some valid →
        (resolveApp pt k u).1 ∈ valid) := by
  constructor
  · intro preds pt valid hpt hlk
    rw [resolveTest_of_lookup hpt hlk]
    by_cases hmem : argmax preds ∈ valid
    · rw [if_pos hmem]
      exact hmem
    · rw [if_neg hmem]
      have hne : valid ≠ [] := lookup_plantTypesTest_ne_nil hlk
      have hmapne : (valid.map fun i => preds.getD i 0) ≠ [] := by
        intro hc
        exact hne (List.map_eq_nil_iff.mp hc)
      have harg : argmax (valid.map fun i => preds.getD i 0) < valid.length := by
        have := argmax_lt_length hmapne
        rwa [List.length_map] at this
      exact getD_mem_of_lt valid _ 0 harg
  · intro pt valid k u hpt hlk
    rw [resolveApp_of_lookup hpt hlk]
    exact npChoice_mem (lookup_plantTypesApp_ne_nil hlk) k

theorem c1_witness :
    (resolveTest (List.replicate 38 (0 : ℚ)) "tomato").1
        ∈ [28, 29, 30, 31, 32, 33, 34, 35, 36, 37]
    ∧ (resolveApp "apple" 5 0).1 ∈ [0, 1, 2, 3] :=
  ⟨c1_restriction_invariant.1 (List.replicate 38 (0 : ℚ)) "tomato"
      [28, 29, 30, 31, 32, 33, 34, 35, 36, 37] (by decide) (by decide),
   c1_restriction_invariant.2 "apple" [0, 1, 2, 3] 5 0 (by decide) (by decide)⟩

/-- C4: `np.argmax` tie-break determinism.  First half: for a vector whose
maximum is attained at exactly the two indices `i < j`, `argmax` returns `i`.
Second half: the same holds inside a restricted plant subset — when the
global argmax is outside the set and the filtered score list attains its
maximum at exactly positions `a < b`, the resolver returns the class at
position `a` of the plant's id set. -/
theorem c4_argmax_tiebreak :
    (∀ (l : List ℚ) (i j : Nat), i < j → j < l.length →
        l.getD i 0 = l.getD j 0 →
        (∀ k, k < l.length → l.getD k 0 ≤ l.getD i 0) →
        (∀ k, k < l.length → l.getD k 0 = l.getD i 0 → k = i ∨ k = j) →
        argmax l = i)
    ∧ (∀ (preds : List ℚ) (pt : String) (valid : List Nat) (a b : Nat),
        pt ≠ "" → List.lookup (strLower pt) plantTypesTest = some valid →
        argmax preds ∉ valid →
        a < b → b < (valid.map fun i => preds.getD i 0).length →
        (valid.map fun i => preds.getD i 0).getD a 0
          = (valid.map fun i => preds.getD i 0).getD b 0 →
        (∀ k, k < (valid.map fun i => preds.getD i 0).length →
          (valid.map fun i => preds.getD i 0).getD k 0
            ≤ (valid.map fun i => preds.getD i 0).getD a 0) →
        (∀ k, k < (valid.map fun i => preds.getD i 0).length →
          (valid.map fun i => preds.getD i 0).getD k 0
            = (valid.map fun i => preds.getD i 0).getD a 0 → k = a ∨ k = b) →
        (resolveTest preds pt).1 = valid.getD a 0) := by
  constructor
  · intro l i j hij hjl heq hmax huniq
    exact argmax_eq_of_two_max hij hjl heq hmax huniq
  · intro preds pt valid a b hpt hlk hnot hab hbl heq hmax huniq
    rw [resolveTest_of_lookup hpt hlk, if_neg hnot]
    rw [argmax_eq_of_two_max hab hbl heq hmax huniq]

theorem c4_witness :
    argmax [(1 : ℚ), 3, 3, 0] = 1
    ∧ (resolveTest [(5 : ℚ), 5, 4, 3, 9] "apple").1 = [0, 1, 2, 3].getD 0 0 :=
  ⟨c4_argmax_tiebreak.1 [(1 : ℚ), 3, 3, 0] 1 2 (by decide) (by decide)
      (by decide) (by decide) (by decide),
   c4_argmax_tiebreak.2 [(5 : ℚ), 5, 4, 3, 9] "apple" [0, 1, 2, 3] 0 1
      (by decide) (by decide) (by decide) (by decide) (by decide) (by decide)
      (by decide) (by decide)⟩

/-- C3: severity is boundary-exact in both variants.  On the raw 0-1 scale
(0-100 scale divided by 100): exactly 0.8 gives `medium`, exactly 0.6 gives
`low`, strictly above 0.8 gives `high`, strictly above 0.6 (up to 0.8) gives
`medium`; a healthy condition gives `none` in the mock variant and `low` in
the model-backed variant. -/
theorem c3_severity_boundaries :
    (severityApp false 0.8 = "medium" ∧ severityTest false 0.8 = "medium")
    ∧ (severityApp false 0.6 = "low" ∧ severityTest false 0.6 = "low")
    ∧ (∀ c : ℚ, c > 0.8 → severityApp false c = "high" ∧ severityTest false c = "high")
    ∧ (∀ c : ℚ, 0.6 < c → c ≤ 0.8 →
        severityApp false c = "medium" ∧ severityTest false c = "medium")
    ∧ (∀ c : ℚ, severityApp true c = "none" ∧ severityTest true c = "low") := by
  refine ⟨⟨by norm_num [severityApp], by norm_num [severityTest]⟩,
    ⟨by norm_num [severityApp], by norm_num [severityTest]⟩, ?_, ?_, ?_⟩
  · intro c h
    constructor <;> simp [severityApp, severityTest, h]
  · intro c h1 h2
    have hn : ¬ (c > 0.8) := not_lt.mpr h2
    constructor <;> simp [severityApp, severityTest, hn, h1]
  · intro c
    constructor <;> simp [severityApp, severityTest]

theorem c3_witness :
    (severityApp false 0.9 = "high" ∧ severityTest false 0.9 = "high")
    ∧ (severityApp false 0.7 = "medium" ∧ severityTest false 0.7 = "medium")
    ∧ (severityApp true 0.99 = "none" ∧ severityTest true 0.99 = "low") :=
  ⟨c3_severity_boundaries.2.2.1 0.9 (by norm_num),
   c3_severity_boundaries.2.2.2.1 0.7 (by norm_num) (by norm_num),
   c3_severity_boundaries.2.2.2.2 0.99⟩

/-- C9: the assembler splits the class label on `___`:
`Tomato___Late_blight` gives plant `Tomato` and condition `Late_blight`
(under both variants' missing-separator defaults), which is not healthy; and
for every label of either class table, the computed `is_healthy` flag is true
exactly when the condition part contains the substring `healthy`
case-insensitively (stated independently via list-infix containment of the
lowercased condition). -/
theorem c9_label_split_healthy :
    (pySplitHead "Tomato___Late_blight" "___" = "Tomato"
      ∧ pySplitSnd "Tomato___Late_blight" "___" "Unknown" = "Late_blight"
      ∧ pySplitSnd "Tomato___Late_blight" "___" "healthy" = "Late_blight"
      ∧ strContains (strLower (pySplitSnd "Tomato___Late_blight" "___" "Unknown"))
          "healthy" = false)
    ∧ (∀ e ∈ diseaseClassesApp,
        strContains (strLower (pySplitSnd e.2 "___" "Unknown")) "healthy" = true
          ↔ "healthy".data <:+: (strLower (pySplitSnd e.2 "___" "Unknown")).data)
    ∧ (∀ e ∈ diseaseClassesTest,
        strContains (strLower (pySplitSnd e.2 "___" "healthy")) "healthy" = true
          ↔ "healthy".data <:+: (strLower (pySplitSnd e.2 "___" "healthy")).data) := by
  exact ⟨⟨by decide, by decide, by decide, by decide⟩, by decide, by decide⟩

theorem c9_witness :
    (strContains (strLower (pySplitSnd (3, "Apple___healthy").2 "___" "Unknown"))
        "healthy" = true
      ↔ "healthy".data
          <:+: (strLower (pySplitSnd (3, "Apple___healthy").2 "___" "Unknown")).data)
    ∧ (strContains (strLower (pySplitSnd (31, "Tomato___Late_blight").2 "___" "healthy"))
        "healthy" = true
      ↔ "healthy".data
          <:+: (strLower (pySplitSnd (31, "Tomato___Late_blight").2 "___" "healthy")).data) :=
  ⟨c9_label_split_healthy.2.1 (3, "Apple___healthy") (by decide),
   c9_label_split_healthy.2.2 (31, "Tomato___Late_blight") (by decide)⟩

/-- `ResizeSpec` holds for the trivial constant resizer (used in concrete
instantiations). -/
theorem rszConst_spec : ResizeSpec rszConst := by
  intro img w h
  refine ⟨List.length_replicate h _, ?_, ?_⟩
  · intro row hrow
    rw [List.eq_of_mem_replicate hrow]
    exact List.length_replicate w _
  · intro row hrow p hp
    rw [List.eq_of_mem_replicate hrow] at hp
    rw [List.eq_of_mem_replicate hp]
    exact ⟨Nat.zero_le 255, Nat.zero_le 255, Nat.zero_le 255⟩

theorem chanBound (n : Nat) (h : n ≤ 255) : 0 ≤ (n : ℚ) / 255 ∧ (n : ℚ) / 255 ≤ 1 := by
  constructor
  · positivity
  · rw [div_le_one (by norm_num)]
    exact_mod_cast le_trans h (by norm_num)

theorem allowedExtApp_ne_empty {f : String} (h : allowedExtApp f = true) : f ≠ "" := by
  intro hc
  subst hc
  simp [allowedExtApp, hasDot] at h

theorem allowedExtTest_ne_empty {f : String} (h : allowedExtTest f = true) : f ≠ "" := by
  intro hc
  subst hc
  simp [allowedExtTest, hasDot] at h

/-- C2: a well-formed upload (model available, image part present, non-empty
filename) whose `plant_type` — after the handler's lowercasing and stripping —
is non-empty and not a key of `PLANT_TYPES` is answered by the
`plant_disease_app` handler with HTTP 400, a body enumerating the supported
plant types, and no prediction result. -/
theorem c2_unsupported_plant_type :
    ∀ (decode : List Nat → Option RGBImage) (rsz : RGBImage → Nat → Nat → RGBImage)
      (req : PredictRequest) (k : Nat) (u : ℚ),
      req.modelOk = true → req.hasImage = true → req.filename ≠ "" →
      strTrim (strLower req.plantTypeRaw) ≠ "" →
      List.lookup (strTrim (strLower req.plantTypeRaw)) plantTypesApp = none →
      predictRouteApp decode rsz req k u
          = .clientError (.unsupportedPlant ["apple", "corn", "grape", "potato", "tomato"])
        ∧ statusOf (predictRouteApp decode rsz req k u) = 400
        ∧ ∀ r, predictRouteApp decode rsz req k u ≠ .ok r := by
  intro dec rsz req k u hm hi hf hp hlk
  have hroute : predictRouteApp dec rsz req k u
      = .clientError (.unsupportedPlant (plantTypesApp.map Prod.fst)) := by
    unfold predictRouteApp
    simp only [hm, hi, Bool.true_eq_false, if_false, if_neg hf]
    rw [if_pos ⟨hp, hlk⟩]
  have hmapeq : plantTypesApp.map Prod.fst
      = ["apple", "corn", "grape", "potato", "tomato"] := by decide
  refine ⟨by rw [hroute, hmapeq], by rw [hroute]; rfl, ?_⟩
  intro r hc
  rw [hroute] at hc
  exact Resp.noConfusion hc

theorem c2_witness :
    predictRouteApp decNone rszConst ⟨true, true, "leaf.jpg", "banana", []⟩ 0 0
        = .clientError (.unsupportedPlant ["apple", "corn", "grape", "potato", "tomato"])
      ∧ statusOf (predictRouteApp decNone rszConst ⟨true, true, "leaf.jpg", "banana", []⟩ 0 0) = 400
      ∧ ∀ r, predictRouteApp decNone rszConst ⟨true, true, "leaf.jpg", "banana", []⟩ 0 0 ≠ .ok r :=
  c2_unsupported_plant_type decNone rszConst ⟨true, true, "leaf.jpg", "banana", []⟩ 0 0
    rfl rfl (by decide) (by decide) (by decide)

/-- C7: an upload whose bytes do not decode (e.g. zero bytes) but whose
filename carries an allowed extension — with the model available, the other
request validations passing and the 16 MiB cap respected — is answered by
both handlers with HTTP 400 carrying the prediction-failure error body: the
`ValueError("Invalid image format: ...")` raised by preprocessing is caught
at the request boundary, so no exception escapes and no partial
`DiagnosisResult` is produced. -/
theorem c7_undecodable_image_400 :
    (∀ (decode : List Nat → Option RGBImage) (rsz : RGBImage → Nat → Nat → RGBImage)
        (req : PredictRequest) (k : Nat) (u : ℚ),
      req.modelOk = true → req.hasImage = true →
      allowedExtApp req.filename = true →
      (strTrim (strLower req.plantTypeRaw) = ""
        ∨ (List.lookup (strTrim (strLower req.plantTypeRaw)) plantTypesApp).isSome = true) →
      req.imageData.length ≤ 16 * 1024 * 1024 →
      decode req.imageData = none →
      predictRouteApp decode rsz req k u = .clientError .predictionFailed
        ∧ statusOf (predictRouteApp decode rsz req k u) = 400)
    ∧ (∀ (decode : List Nat → Option RGBImage) (rsz : RGBImage → Nat → Nat → RGBImage)
        (mdl : List (List (List (List ℚ))) → List ℚ) (req : PredictRequest),
      req.modelOk = true → req.hasImage = true →
      allowedExtTest req.filename = true →
      req.imageData.length ≤ 16 * 1024 * 1024 →
      decode req.imageData = none →
      predictRouteTest decode rsz mdl req = .clientError .predictionFailed
        ∧ statusOf (predictRouteTest decode rsz mdl req) = 400) := by
  constructor
  · intro dec rsz req k u hm hi hext hplant hsize hdec
    have hfn : req.filename ≠ "" := allowedExtApp_ne_empty hext
    have hplantneg : ¬ (strTrim (strLower req.plantTypeRaw) ≠ ""
        ∧ List.lookup (strTrim (strLower req.plantTypeRaw)) plantTypesApp = none) := by
      rcases hplant with h | h
      · intro hc; exact hc.1 h
      · intro hc; rw [hc.2] at h; simp at h
    have hsz : ¬ (req.imageData.length > 16 * 1024 * 1024) := not_lt.mpr hsize
    have hpd : predict_disease_app dec rsz req.imageData
        (strTrim (strLower req.plantTypeRaw)) k u = none := by
      unfold predict_disease_app preprocess_image
      rw [hdec]
    have hroute : predictRouteApp dec rsz req k u = .clientError .predictionFailed := by
      unfold predictRouteApp
      simp only [hm, hi, Bool.true_eq_false, if_false, if_neg hfn, if_neg hplantneg,
        hext, if_neg hsz, hpd]
    exact ⟨hroute, by rw [hroute]; rfl⟩
  · intro dec rsz mdl req hm hi hext hsize hdec
    have hfn : req.filename ≠ "" := allowedExtTest_ne_empty hext
    have hsz : ¬ (req.imageData.length > 16 * 1024 * 1024) := not_lt.mpr hsize
    have hpd : predict_disease_test dec rsz mdl req.imageData
        (strLower req.plantTypeRaw) = none := by
      unfold predict_disease_test preprocess_image
      rw [hdec]
    have hroute : predictRouteTest dec rsz mdl req = .clientError .predictionFailed := by
      unfold predictRouteTest
      simp only [hm, hi, Bool.true_eq_false, if_false, if_neg hfn, hext, if_neg hsz, hpd]
    exact ⟨hroute, by rw [hroute]; rfl⟩

theorem c7_witness :
    (predictRouteApp decNone rszConst ⟨true, true, "x.png", "", []⟩ 0 0
        = .clientError .predictionFailed
      ∧ statusOf (predictRouteApp decNone rszConst ⟨true, true, "x.png", "", []⟩ 0 0) = 400)
    ∧ (predictRouteTest decNone rszConst mdl38 ⟨true, true, "x.png", "", []⟩
        = .clientError .predictionFailed
      ∧ statusOf (predictRouteTest decNone rszConst mdl38 ⟨true, true, "x.png", "", []⟩) = 400) :=
  ⟨c7_undecodable_image_400.1 decNone rszConst ⟨true, true, "x.png", "", []⟩ 0 0
      rfl rfl (by decide) (Or.inl (by decide)) (by decide) rfl,
   c7_undecodable_image_400.2 decNone rszConst mdl38 ⟨true, true, "x.png", "", []⟩
      rfl rfl (by decide) (by decide) rfl⟩

/-- C5: whenever the bytes decode, `preprocess_image` succeeds and returns,
for any resizer meeting the PIL resize contract, a tensor of shape exactly
`(1, th, tw, 3)` with every component in `[0, 1]`; and the output depends
only on the decoded image (same decode result, hence same bytes, gives the
same tensor — the pipeline is deterministic). -/
theorem c5_preprocess_shape_range :
    ∀ (decode : List Nat → Option RGBImage) (rsz : RGBImage → Nat → Nat → RGBImage)
      (data : List Nat) (tw th : Nat) (img : RGBImage),
      ResizeSpec rsz → decode data = some img →
      (preprocess_image decode rsz data tw th
          = some [(rsz img tw th).pixels.map (fun row => row.map pixChans)])
      ∧ (∀ t, preprocess_image decode rsz data tw th = some t →
          t.length = 1
          ∧ (∀ plane ∈ t, plane.length = th
              ∧ (∀ row ∈ plane, row.length = tw
                  ∧ ∀ pix ∈ row, pix.length = 3 ∧ ∀ v ∈ pix, 0 ≤ v ∧ v ≤ 1)))
      ∧ (∀ data2, decode data2 = decode data →
          preprocess_image decode rsz data2 tw th
            = preprocess_image decode rsz data tw th) := by
  intro dec rsz data tw th img hspec hdec
  have heq : preprocess_image dec rsz data tw th
      = some [(rsz img tw th).pixels.map (fun row => row.map pixChans)] := by
    unfold preprocess_image
    rw [hdec]
  refine ⟨heq, ?_, ?_⟩
  · intro t ht
    rw [heq] at ht
    obtain rfl : (([(rsz img tw th).pixels.map (fun row => row.map pixChans)]) : List _) = t :=
      Option.some.inj ht
    refine ⟨rfl, ?_⟩
    intro plane hplane
    rw [List.mem_singleton] at hplane
    subst hplane
    obtain ⟨hh, hw, hb⟩ := hspec img tw th
    refine ⟨by rw [List.length_map]; exact hh, ?_⟩
    intro row hrow
    obtain ⟨row0, hrow0, rfl⟩ := List.mem_map.mp hrow
    refine ⟨by rw [List.length_map]; exact hw row0 hrow0, ?_⟩
    intro pix hpix
    obtain ⟨p, hp, rfl⟩ := List.mem_map.mp hpix
    refine ⟨rfl, ?_⟩
    intro v hv
    obtain ⟨h1, h2, h3⟩ := hb row0 hrow0 p hp
    simp only [pixChans, List.mem_cons, List.not_mem_nil, or_false] at hv
    rcases hv with rfl | rfl | rfl
    · exact chanBound p.1 h1
    · exact chanBound p.2.1 h2
    · exact chanBound p.2.2 h3
  · intro d2 h2
    unfold preprocess_image
    rw [h2]

theorem c5_witness :
    (preprocess_image decSome rszConst [] 2 2
        = some [(rszConst ⟨[[(1, 2, 3)]]⟩ 2 2).pixels.map (fun row => row.map pixChans)])
      ∧ (∀ t, preprocess_image decSome rszConst [] 2 2 = some t →
          t.length = 1
          ∧ (∀ plane ∈ t, plane.length = 2
              ∧ (∀ row ∈ plane, row.length = 2
                  ∧ ∀ pix ∈ row, pix.length = 3 ∧ ∀ v ∈ pix, 0 ≤ v ∧ v ≤ 1)))
      ∧ (∀ data2, decSome data2 = decSome [] →
          preprocess_image decSome rszConst data2 2 2
            = preprocess_image decSome rszConst [] 2 2) :=
  c5_preprocess_shape_range decSome rszConst [] 2 2 ⟨[[(1, 2, 3)]]⟩ rszConst_spec rfl

/-- C6: in the mock variant the resolved class id and confidence come from
the generator draws alone — for a fixed generator state (`k`, `u`) and the
same `plant_type`, any two decodable image inputs yield the same
`(class_id, confidence)` pair. -/
theorem c6_mock_independent_of_image :
    ∀ (decode : List Nat → Option RGBImage) (rsz : RGBImage → Nat → Nat → RGBImage)
      (d1 d2 : List Nat) (pt : String) (k : Nat) (u : ℚ),
      (decode d1).isSome = true → (decode d2).isSome = true →
      (predict_disease_app decode rsz d1 pt k u).map (fun r => (r.class_id, r.confidence))
        = (predict_disease_app decode rsz d2 pt k u).map (fun r => (r.class_id, r.confidence)) := by
  intro dec rsz d1 d2 pt k u h1 h2
  obtain ⟨i1, hi1⟩ := Option.isSome_iff_exists.mp h1
  obtain ⟨i2, hi2⟩ := Option.isSome_iff_exists.mp h2
  unfold predict_disease_app preprocess_image
  rw [hi1, hi2]

theorem c6_witness :
    (predict_disease_app decSome rszConst [] "tomato" 3 0).map
        (fun r => (r.class_id, r.confidence))
      = (predict_disease_app decSome rszConst [9, 9, 9] "tomato" 3 0).map
        (fun r => (r.class_id, r.confidence)) :=
  c6_mock_independent_of_image decSome rszConst [] [9, 9, 9] "tomato" 3 0 rfl rfl

/-- C8 counterexample: in the mock variant (`get_disease_recommendations`),
severity `low` DOES add a line at position 0 (the early-stage urgency line),
and `high` does not append an escalation line — the high and low lists have
the same length, not a difference of two as the claimed insert-plus-append
structure over a prefix-free low list would force. -/
theorem c8_counterexample :
    (get_disease_recommendations "Tomato" "Early_blight" "low").headD ""
        = "‚ÑπÔ∏è Early stage treatment recommended"
    ∧ (get_disease_recommendations "Tomato" "Early_blight" "high").length
        = (get_disease_recommendations "Tomato" "Early_blight" "low").length
    ∧ ¬ ((get_disease_recommendations "Tomato" "Early_blight" "high").length
        = (get_disease_recommendations "Tomato" "Early_blight" "low").length + 2) := by
  exact ⟨by decide, by decide, by decide⟩

/-- C8 (amended): in the model-backed variant (`get_recommendations`),
`high` inserts the urgent-action line at position 0 and appends the
escalation line, `medium` inserts the moderate-intervention line at position
0, any other severity (`low`/`none`) adds nothing, and a healthy condition
(at the severity `low` that the pipeline assigns it) yields exactly the
positive-reinforcement list.  In the mock variant
(`get_disease_recommendations`), a non-healthy condition always gets exactly
one severity line at position 0 — urgent for `high`, moderate for `medium`,
and an early-stage line for `low`/`none` — with no appended escalation line,
while a healthy condition yields the positive list with no severity line. -/
theorem c8_amended_severity_lines :
    (∀ dt : String, get_recommendations dt "high"
        = "URGENT: Immediate action required"
          :: (baseRecsTest dt ++ ["Consider removing severely affected plants"]))
    ∧ (∀ dt : String, get_recommendations dt "medium"
        = "Moderate intervention needed" :: baseRecsTest dt)
    ∧ (∀ dt sev : String, sev ≠ "high" → sev ≠ "medium" →
        get_recommendations dt sev = baseRecsTest dt)
    ∧ (∀ dt : String, strContains (strLower dt) "healthy" = true →
        get_recommendations dt "low"
          = ["Continue current care practices",
             "Monitor for any changes in plant appearance",
             "Maintain proper watering and fertilization schedule",
             "Ensure adequate sunlight and air circulation"])
    ∧ (∀ pn dt sev : String, strContains (strLower dt) "healthy" = false →
        get_disease_recommendations pn dt sev
          = sevLineApp sev :: (diseaseSpecificApp pn dt ++ preventionApp))
    ∧ (∀ pn dt sev : String, strContains (strLower dt) "healthy" = true →
        get_disease_recommendations pn dt sev = healthyRecsApp pn)
    ∧ sevLineApp "high" = "üö® URGENT: Immediate action required!"
    ∧ sevLineApp "medium" = "‚ö†Ô∏è Moderate intervention needed"
    ∧ sevLineApp "low" = "‚ÑπÔ∏è Early stage treatment recommended"
    ∧ sevLineApp "none" = "‚ÑπÔ∏è Early stage treatment recommended" := by
  refine ⟨?_, ?_, ?_, ?_, ?_, ?_, by decide, by decide, by decide, by decide⟩
  · intro dt
    simp [get_recommendations]
  · intro dt
    simp [get_recommendations]
  · intro dt sev h1 h2
    simp [get_recommendations, h1, h2]
  · intro dt h
    simp [get_recommendations, baseRecsTest, h]
  · intro pn dt sev h
    simp [get_disease_recommendations, h]
  · intro pn dt sev h
    simp [get_disease_recommendations, h]

theorem c8_witness :
    get_recommendations "Late_blight" "low" = baseRecsTest "Late_blight"
    ∧ get_disease_recommendations "Tomato" "Early_blight" "low"
        = sevLineApp "low" :: (diseaseSpecificApp "Tomato" "Early_blight" ++ preventionApp)
    ∧ get_disease_recommendations "Tomato" "healthy" "high" = healthyRecsApp "Tomato" :=
  ⟨c8_amended_severity_lines.2.2.1 "Late_blight" "low" (by decide) (by decide),
   c8_amended_severity_lines.2.2.2.2.1 "Tomato" "Early_blight" "low" (by decide),
   c8_amended_severity_lines.2.2.2.2.2.1 "Tomato" "healthy" "high" (by decide)⟩

/-- C10: in the model-backed variant, when the resolved class label lacks the
`___` separator (and no recognized plant filter rewrites the resolution),
`predict_disease` defaults `disease_type` to the sentinel `healthy`, which
forces `is_healthy = true`, severity `low` and the healthy-plant
recommendation list, regardless of the confidence value. -/
theorem c10_missing_separator_healthy :
    ∀ (decode : List Nat → Option RGBImage) (rsz : RGBImage → Nat → Nat → RGBImage)
      (mdl : List (List (List (List ℚ))) → List ℚ) (data : List Nat) (pt : String)
      (t : List (List (List (List ℚ)))),
      preprocess_image decode rsz data 160 160 = some t →
      (pt = "" ∨ List.lookup (strLower pt) plantTypesTest = none) →
      splitRest "___".data
          ((List.lookup (argmax (mdl t)) diseaseClassesTest).getD "Unknown").data = none →
      predict_disease_test decode rsz mdl data pt
        = some { plant_name :=
                   pySplitHead ((List.lookup (argmax (mdl t)) diseaseClassesTest).getD
                     "Unknown") "___"
                 disease_type := "healthy"
                 is_healthy := true
                 confidence := pyRound2 ((mdl t).getD (argmax (mdl t)) 0 * 100)
                 severity := "low"
                 recommendations :=
                   ["Continue current care practices",
                    "Monitor for any changes in plant appearance",
                    "Maintain proper watering and fertilization schedule",
                    "Ensure adequate sunlight and air circulation"] } := by
  intro dec rsz mdl data pt t hpre hplant hsep
  have hres : resolveTest (mdl t) pt
      = (argmax (mdl t), (mdl t).getD (argmax (mdl t)) 0) := by
    unfold resolveTest
    have hnone : (if pt = "" then none
        else List.lookup (strLower pt) plantTypesTest) = (none : Option (List Nat)) := by
      rcases hplant with h | h
      · rw [if_pos h]
      · by_cases hpt : pt = ""
        · rw [if_pos hpt]
        · rw [if_neg hpt, h]
    rw [hnone]
  have hsnd : pySplitSnd ((List.lookup (argmax (mdl t)) diseaseClassesTest).getD
      "Unknown") "___" "healthy" = "healthy" := by
    unfold pySplitSnd
    rw [hsep]
  have hh : strContains (strLower "healthy") "healthy" = true := by decide
  have hsev : ∀ c : ℚ, severityTest true c = "low" := fun c => rfl
  have hr : get_recommendations "healthy" "low"
      = ["Continue current care practices",
         "Monitor for any changes in plant appearance",
         "Maintain proper watering and fertilization schedule",
         "Ensure adequate sunlight and air circulation"] := by decide
  unfold predict_disease_test
  rw [hpre]
  simp only [hres, hsnd, hh, hsev, hr]

set_option maxRecDepth 4000 in
theorem c10_witness :
    predict_disease_test decSome rszConst mdl38 [] ""
      = some { plant_name :=
                 pySplitHead ((List.lookup (argmax (mdl38 t160))
                   diseaseClassesTest).getD "Unknown") "___"
               disease_type := "healthy"
               is_healthy := true
               confidence := pyRound2 ((mdl38 t160).getD (argmax (mdl38 t160)) 0 * 100)
               severity := "low"
               recommendations :=
                 ["Continue current care practices",
                  "Monitor for any changes in plant appearance",
                  "Maintain proper watering and fertilization schedule",
                  "Ensure adequate sunlight and air circulation"] } :=
  c10_missing_separator_healthy decSome rszConst mdl38 [] "" t160
    rfl (Or.inl rfl) (by decide)

end PD
